import Mathlib

/-
Verification of the ai-translator translation service against its specification.

The definitions below are a shallow embedding of the backend translation code:
`OpenAIService` (translateText, _createSystemInstruction, _getLanguageSpecificInstructions,
_determineModelParameters, _exceedsTokenLimit, _handleLargeText, _translateChunk,
detectLanguage) and the `createTranslation` controller.

External completion calls are modelled by an oracle `Oracle : Nat → Except ApiError String`
giving the outcome of the n-th call made during one operation (the service performs its
calls strictly sequentially, so call order is well defined).  Each embedded operation
returns, besides its result, the list of `ChatRequest` values it sent, so that theorems
can speak about how many external calls were made and with which payloads.
-/

namespace AITranslator

/-- Outcome data of a failed external call: the optional HTTP-like status of
`error.response` (`none` when the error carries no response) and `error.message`. -/
structure ApiError where
  status : Option Nat
  message : String
deriving DecidableEq

/-- One chat-completion request as assembled by the service:
model identifier, system instruction, user payload, temperature and max_tokens. -/
structure ChatRequest where
  model : String
  system : String
  user : String
  temperature : ℚ
  maxTokens : Nat
deriving DecidableEq

/-- The options record passed to translateText.  In the JS source `tone` and `style`
are strings where the empty string and an absent field behave identically (both are
falsy and neither matches any switch case), so they are modelled as plain strings with
`""` standing for absent. -/
structure Options where
  tone : String
  style : String
  preserveFormatting : Bool
deriving DecidableEq

/-- The oracle giving the outcome of the n-th external completion call. -/
def Oracle : Type := Nat → Except ApiError String

/-- Default options object built by the controller when the request carries none. -/
def defaultOptions : Options :=
  { tone := "standard", style := "standard", preserveFormatting := true }

/-- Tone clause of `_createSystemInstruction`: skipped entirely when `options.tone`
is falsy, otherwise selected by the switch with a neutral-tone default. -/
def toneClause (tone : String) : String :=
  if tone = "" then ""
  else if tone = "formal" then
    "Use formal language, appropriate for professional or academic contexts. "
  else if tone = "informal" then "Use informal but respectful language. "
  else if tone = "casual" then "Use casual, conversational language. "
  else if tone = "professional" then
    "Use professional language appropriate for business contexts. "
  else "Use a neutral tone. "

/-- Style clause of `_createSystemInstruction`: skipped when `options.style` is falsy;
the switch sends both the explicit case and the default to the balanced clause. -/
def styleClause (style : String) : String :=
  if style = "" then ""
  else if style = "simplified" then
    "Simplify the translation while preserving core meaning. Use simpler vocabulary and shorter sentences. "
  else if style = "detailed" then
    "Provide a detailed translation, preserving nuances and subtleties of the original text. "
  else "Translate with a balance of accuracy and readability. "

/-- `_getLanguageSpecificInstructions`: fixed lookup keyed by target language code,
empty for absent entries. -/
def langSpecificInstructions (targetLang : String) : String :=
  if targetLang = "es" then
    "For Spanish, pay attention to formal vs. informal \"you\" (tú/usted) based on the tone. "
  else if targetLang = "fr" then
    "For French, pay attention to formal vs. informal \"you\" (tu/vous) based on the tone. "
  else if targetLang = "de" then
    "For German, pay attention to formal vs. informal \"you\" (du/Sie) based on the tone. "
  else if targetLang = "ja" then
    "For Japanese, use appropriate levels of politeness (keigo) based on the tone. "
  else if targetLang = "zh" then
    "For Chinese, use simplified characters unless otherwise specified. "
  else ""

/-- `_createSystemInstruction`: base instruction, tone clause, style clause, optional
formatting clause, language-specific hint, concatenated in source order. -/
def createSystemInstruction (sourceLang targetLang : String) (options : Options) : String :=
  "You are a professional translator with expertise in " ++ sourceLang ++ " and " ++
    targetLang ++ ". " ++
  "Translate the text from " ++ sourceLang ++ " to " ++ targetLang ++
    ", preserving the original meaning and context. " ++
  toneClause options.tone ++ styleClause options.style ++
  (if options.preserveFormatting then
    "Preserve the original formatting including paragraphs, bullet points, and text structure. "
   else "") ++
  langSpecificInstructions targetLang

/-- Model parameters chosen by `_determineModelParameters`. -/
structure ModelParams where
  model : String
  temperature : ℚ
  maxTokens : Nat
deriving DecidableEq

/-- `_determineModelParameters`: a default record mutated by the two style branches;
embedded as the equivalent conditional. -/
def determineModelParameters (options : Options) : ModelParams :=
  if options.style = "detailed" then
    { model := "gpt-4", temperature := 4/10, maxTokens := 3000 }
  else if options.style = "simplified" then
    { model := "gpt-4", temperature := 2/10, maxTokens := 1500 }
  else
    { model := "gpt-4", temperature := 3/10, maxTokens := 2000 }

/-- `Math.ceil(text.length / 3)` on natural numbers. -/
def estimatedTokens (text : String) : Nat := (text.length + 2) / 3

/-- `_exceedsTokenLimit`: the estimate is compared against the 3000-token threshold. -/
def exceedsTokenLimit (text : String) : Bool := decide (3000 < estimatedTokens text)

/-- The character class of the regular expression escape `\s` used by
`text.split(/\n\s*\n/)`: ASCII whitespace plus the Unicode space separators,
no-break spaces, line/paragraph separators and the byte-order mark. -/
def jsWhitespace (c : Char) : Bool :=
  c = ' ' || c = '\t' || c = '\n' || c = '\r' || c = '\x0b' || c = '\x0c' ||
  c = ' ' || c = ' ' || (8192 ≤ c.toNat && c.toNat ≤ 8202) ||
  c = ' ' || c = ' ' || c = ' ' || c = ' ' || c = '　' ||
  c = '﻿'

/-- Index of the last newline in a character list, if any. -/
def lastNlIdx : List Char → Option Nat
  | [] => none
  | c :: t =>
    match lastNlIdx t with
    | some i => some (i + 1)
    | none => if c = '\n' then some 0 else none

/-- Attempt to match the tail `\s*\n` of the separator regex `/\n\s*\n/` at the
position just after an initial newline, with the greedy/backtracking semantics of
the regex engine: `\s*` consumes the maximal whitespace run and backtracks until
the next character is a newline, i.e. the match extends to the LAST newline inside
the whitespace run following the initial one.  Returns the remaining input after
the match, or `none` when no further newline follows within the run. -/
def sepTail (rest : List Char) : Option (List Char) :=
  match lastNlIdx (rest.takeWhile jsWhitespace) with
  | some i => some (rest.drop (i + 1))
  | none => none

theorem sepTail_length {rest rest' : List Char} (h : sepTail rest = some rest') :
    rest'.length ≤ rest.length := by
  unfold sepTail at h
  cases hl : lastNlIdx (rest.takeWhile jsWhitespace) with
  | none => rw [hl] at h; exact absurd h (by simp)
  | some i =>
    rw [hl] at h
    have : rest.drop (i + 1) = rest' := by simpa using h
    subst this
    simpa using List.length_drop_le (i + 1) rest

/-- Left-to-right scan implementing `text.split(/\n\s*\n/)` on the character list:
at each newline the engine tries to complete a separator match via `sepTail`; on
success the accumulated paragraph is emitted and scanning restarts after the match,
otherwise the character is accumulated into the current paragraph. -/
def splitParasAux (l : List Char) (acc : List Char) : List (List Char) :=
  match l with
  | [] => [acc.reverse]
  | c :: rest =>
    if c = '\n' then
      match h : sepTail rest with
      | some rest' => acc.reverse :: splitParasAux rest' []
      | none => splitParasAux rest (c :: acc)
    else splitParasAux rest (c :: acc)
termination_by l.length
decreasing_by
  · simp only [List.length_cons]
    exact Nat.lt_succ_of_le (sepTail_length h)
  · simp
  · simp

/-- `text.split(/\n\s*\n/)`, producing the ordered paragraph list. -/
def splitParas (text : String) : List String :=
  (splitParasAux text.data []).map String.mk

/-- The greedy packing loop of `_handleLargeText`: `chunks` is the array built so
far, `cur` the running chunk.  When adding the next paragraph would push the
running chunk past 2500 characters the running chunk is closed (if non-empty) and
the paragraph starts a new one; otherwise the paragraph is appended to the running
chunk behind a blank-line separator (no separator when the running chunk is empty). -/
def makeChunksAux : List String → List String → String → List String
  | [], chunks, cur => if cur = "" then chunks else chunks ++ [cur]
  | p :: ps, chunks, cur =>
    if 2500 < cur.length + p.length then
      makeChunksAux ps (if cur = "" then chunks else chunks ++ [cur]) p
    else
      makeChunksAux ps chunks (if cur = "" then p else cur ++ "\n\n" ++ p)

/-- Grouping of paragraphs into chunks, as in `_handleLargeText`. -/
def makeChunks (paras : List String) : List String := makeChunksAux paras [] ""

/-- The chunks `_handleLargeText` builds for a given input text. -/
def chunksOf (text : String) : List String := makeChunks (splitParas text)

/-- `Array.prototype.join(sep)`. -/
def joinSep (sep : String) : List String → String
  | [] => ""
  | [a] => a
  | a :: b :: t => a ++ sep ++ joinSep sep (b :: t)

/-- How `_translateChunk` turns the outcome of its external call into the chunk
segment: trimmed response text on success, the inline error marker built from the
error message on failure (the failure is caught, never re-raised). -/
def chunkResult : Except ApiError String → String
  | .ok content => content.trim
  | .error e => "[TRANSLATION ERROR: " ++ e.message ++ "]"

/-- The sequential per-chunk translation loop of `_handleLargeText`: the i-th chunk
is translated by the (n+i)-th external call. -/
def translateChunksLoop (oracle : Oracle) : Nat → List String → List String
  | _, [] => []
  | n, _ :: cs => chunkResult (oracle n) :: translateChunksLoop oracle (n + 1) cs

/-- The completion request assembled for one translation call (direct call or
single chunk): system instruction from `_createSystemInstruction`, model and
parameters from `_determineModelParameters`, user payload the text being sent. -/
def mkChatRequest (sourceLang targetLang : String) (options : Options)
    (user : String) : ChatRequest :=
  { model := (determineModelParameters options).model
    system := createSystemInstruction sourceLang targetLang options
    user := user
    temperature := (determineModelParameters options).temperature
    maxTokens := (determineModelParameters options).maxTokens }

/-- `_handleLargeText`, starting at call index `n`: split into paragraphs, pack
into chunks, translate each chunk sequentially, and rejoin the translated chunks
with a blank-line separator.  Also returns the requests sent (one per chunk, in
chunk order). -/
def handleLargeText (oracle : Oracle) (n : Nat) (text sourceLang targetLang : String)
    (options : Options) : String × List ChatRequest :=
  (joinSep "\n\n" (translateChunksLoop oracle n (chunksOf text)),
   (chunksOf text).map (mkChatRequest sourceLang targetLang options))

def rateLimitMsg : String := "Rate limit exceeded. Please try again later."

def authErrorMsg : String := "Authentication error. Please check your API key."

def serviceErrorMsg : String := "OpenAI service error. Please try again later."

def genericFailureMsg : String := "Translation failed. Please try again."

/-- The catch block of `translateText`: an error carrying a response is classified
by its status (429, 401, 500); every other failure, including one without a
response, is re-raised with the generic message. -/
def classifyApiError (e : ApiError) : String :=
  match e.status with
  | some s =>
    if s = 429 then rateLimitMsg
    else if s = 401 then authErrorMsg
    else if s = 500 then serviceErrorMsg
    else genericFailureMsg
  | none => genericFailureMsg

/-- `translateText`, starting at call index `n`.  Validation failures are thrown
inside the surrounding try block, so they surface through the catch with the
generic message (a plain Error has no response) and no external call is made.
Small texts take the direct single-call path; oversized texts are delegated to
`_handleLargeText`, which never throws because every per-chunk failure is caught
inside `_translateChunk`. -/
def translateText (oracle : Oracle) (n : Nat) (text sourceLang targetLang : String)
    (options : Options) : Except String String × List ChatRequest :=
  if text = "" then (.error genericFailureMsg, [])
  else if sourceLang = "" then (.error genericFailureMsg, [])
  else if targetLang = "" then (.error genericFailureMsg, [])
  else if exceedsTokenLimit text then
    ((handleLargeText oracle n text sourceLang targetLang options).fst |> .ok,
     (handleLargeText oracle n text sourceLang targetLang options).snd)
  else
    match oracle n with
    | .ok content => (.ok content.trim, [mkChatRequest sourceLang targetLang options text])
    | .error e =>
      (.error (classifyApiError e), [mkChatRequest sourceLang targetLang options text])

def detectionFailedMsg : String :=
  "Language detection failed. Please specify the source language manually."

/-- The fixed request sent by `detectLanguage`. -/
def detectionRequest (text : String) : ChatRequest :=
  { model := "gpt-4"
    system := "You are a language detection system. Analyze the provided text and respond with only the ISO 639-1 language code of the detected language (e.g., \"en\" for English, \"fr\" for French)."
    user := text
    temperature := 1/10
    maxTokens := 10 }

/-- `detectLanguage`: one completion call; the response is trimmed and lower-cased,
any failure is converted to the manual-specification error. -/
def detectLanguage (oracle : Oracle) (n : Nat) (text : String) :
    Except String String × List ChatRequest :=
  match oracle n with
  | .ok content => (.ok content.trim.toLower, [detectionRequest text])
  | .error _ => (.error detectionFailedMsg, [detectionRequest text])

/-- Body of a POST /translations request.  The three language/text fields are
strings with `""` standing for an absent (or empty, equivalently falsy) field;
`options` is genuinely optional. -/
structure TranslationRequestBody where
  sourceText : String
  sourceLang : String
  targetLang : String
  options : Option Options
deriving DecidableEq

/-- The translation payload the controller answers with: the persisted record on
the 201 path, or the temporary object (flagged `_dbSaveFailed`) when the database
write failed. -/
structure ResponseData where
  sourceText : String
  translatedText : String
  sourceLang : String
  targetLang : String
  options : Options
  isFavorite : Bool
  dbSaveFailed : Bool
deriving DecidableEq

/-- The observable part of the HTTP response sent by `createTranslation`. -/
structure HttpResponse where
  status : Nat
  success : Bool
  message : Option String
  data : Option ResponseData
  warning : Option String
deriving DecidableEq

def srcTextRequiredMsg : String := "Source text is required"

def detectionRejectMsg : String :=
  "Source language is required and could not be automatically detected"

def targetRequiredMsg : String := "Target language is required"

def serviceUnavailableMsg : String := "Translation service temporarily unavailable"

def dbWarningMsg : String := "Translation completed but could not be saved to history"

/-- An error response as produced by the controller rejection branches. -/
def mkErrorResponse (status : Nat) (msg : String) : HttpResponse :=
  { status := status, success := false, message := some msg, data := none, warning := none }

/-- The part of `createTranslation` after the source language is resolved
(either taken from the request or detected): target-language validation, default
options, the `translateText` call with its 500 error handler, and persistence
with the save-failure fallback (modelled by the flag `dbOk`). -/
def afterDetection (oracle : Oracle) (n : Nat) (dbOk : Bool)
    (req : TranslationRequestBody) (src : String) : HttpResponse × List ChatRequest :=
  if req.targetLang = "" then (mkErrorResponse 400 targetRequiredMsg, [])
  else
    match translateText oracle n req.sourceText src req.targetLang
        (req.options.getD defaultOptions) with
    | (.error m, reqs) =>
      (mkErrorResponse 500 (if m = "" then serviceUnavailableMsg else m), reqs)
    | (.ok t, reqs) =>
      if dbOk then
        ({ status := 201, success := true, message := none
           data := some
             { sourceText := req.sourceText, translatedText := t, sourceLang := src
               targetLang := req.targetLang, options := req.options.getD defaultOptions
               isFavorite := false, dbSaveFailed := false }
           warning := none }, reqs)
      else
        ({ status := 200, success := true, message := none
           data := some
             { sourceText := req.sourceText, translatedText := t, sourceLang := src
               targetLang := req.targetLang, options := req.options.getD defaultOptions
               isFavorite := false, dbSaveFailed := true }
           warning := some dbWarningMsg }, reqs)

/-- The `createTranslation` controller: source-text validation, then language
detection when `sourceLang` is absent (its failure is caught and rejected with a
400), then target-language validation and the translation itself. -/
def createTranslation (oracle : Oracle) (dbOk : Bool) (req : TranslationRequestBody) :
    HttpResponse × List ChatRequest :=
  if req.sourceText = "" then (mkErrorResponse 400 srcTextRequiredMsg, [])
  else if req.sourceLang = "" then
    match detectLanguage oracle 0 req.sourceText with
    | (.error _, dreqs) => (mkErrorResponse 400 detectionRejectMsg, dreqs)
    | (.ok d, dreqs) =>
      ((afterDetection oracle 1 dbOk req d).fst,
       dreqs ++ (afterDetection oracle 1 dbOk req d).snd)
  else afterDetection oracle 0 dbOk req req.sourceLang

/-! Concrete inputs used to evaluate the code on specific texts. -/

/-- A 1250-character paragraph. -/
def paraA1250 : String := String.mk (List.replicate 1250 'a')

/-- A second 1250-character paragraph. -/
def paraB1250 : String := String.mk (List.replicate 1250 'b')

/-- A 6500-character paragraph. -/
def paraC6500 : String := String.mk (List.replicate 6500 'c')

/-- A 9004-character text of three paragraphs (1250 + 1250 + 6500 plus two
blank-line separators); its first two paragraphs are packed into one chunk. -/
def textC1 : String := paraA1250 ++ "\n\n" ++ paraB1250 ++ "\n\n" ++ paraC6500

/-- The chunk built from the first two paragraphs of `textC1`: 2502 characters. -/
def chunk12 : String := paraA1250 ++ "\n\n" ++ paraB1250

/-- A 9001-character paragraph. -/
def para9001a : String := String.mk (List.replicate 9001 'a')

/-- A 9003-character text that begins with a blank-line separator, so that its
paragraph split starts with an empty paragraph. -/
def textC2 : String := "\n\n" ++ para9001a

/-- A 4500-character paragraph. -/
def para4500a : String := String.mk (List.replicate 4500 'a')

/-- A second 4500-character paragraph. -/
def para4500b : String := String.mk (List.replicate 4500 'b')

/-- A 9002-character text of two 4500-character paragraphs: it exceeds the 9000
character (3000 estimated-token) threshold and packs into exactly two chunks. -/
def textTwo4500 : String := para4500a ++ "\n\n" ++ para4500b

/-- A 1500-character paragraph. -/
def para1500a : String := String.mk (List.replicate 1500 'a')

/-- A second 1500-character paragraph. -/
def para1500b : String := String.mk (List.replicate 1500 'b')

/-- A 3002-character text of two 1500-character paragraphs, the input of the
end-to-end scenario of the specification. -/
def textTwo1500 : String := para1500a ++ "\n\n" ++ para1500b

/-- An oracle whose every call succeeds with the same response. -/
def okOracle : Oracle := fun _ => .ok " Hola "

/-- An oracle whose first call fails without a response and whose later calls
succeed. -/
def failFirstOracle : Oracle := fun n => if n = 0 then .error ⟨none, "boom"⟩ else .ok " ok "

/-- An oracle whose calls all fail without a response. -/
def failOracle : Oracle := fun _ => .error ⟨none, "down"⟩

/-- An oracle answering the first two calls with distinct successful responses. -/
def twoOracle : Oracle := fun n => if n = 0 then .ok " uno " else .ok " dos "

/-! Helper lemmas about strings, the separator join and the greedy packer. -/

theorem strLength_mk (l : List Char) : (String.mk l).length = l.length := rfl

theorem strData_append (s t : String) : (s ++ t).data = s.data ++ t.data := rfl

theorem strNe_empty_of_length {s : String} (h : s.length ≠ 0) : s ≠ "" := by
  intro he
  exact h (by rw [he]; rfl)

theorem paraA1250_length : paraA1250.length = 1250 := by
  rw [paraA1250, strLength_mk, List.length_replicate]

theorem paraB1250_length : paraB1250.length = 1250 := by
  rw [paraB1250, strLength_mk, List.length_replicate]

theorem paraC6500_length : paraC6500.length = 6500 := by
  rw [paraC6500, strLength_mk, List.length_replicate]

theorem sepLength : ("\n\n" : String).length = 2 := rfl

theorem chunk12_length : chunk12.length = 2502 := by
  rw [chunk12, String.length_append, String.length_append, paraA1250_length,
    paraB1250_length, sepLength]

theorem para4500a_length : para4500a.length = 4500 := by
  rw [para4500a, strLength_mk, List.length_replicate]

theorem para4500b_length : para4500b.length = 4500 := by
  rw [para4500b, strLength_mk, List.length_replicate]

theorem joinSep_cons_of_ne_nil (sep a : String) {t : List String} (h : t ≠ []) :
    joinSep sep (a :: t) = a ++ sep ++ joinSep sep t := by
  cases t with
  | nil => exact absurd rfl h
  | cons b t => rfl

/-- Joining is insensitive to whether two adjacent paragraphs were pre-joined with
the separator or kept as separate list entries. -/
theorem joinSep_merge (sep : String) (l₁ : List String) (a b : String) (l₂ : List String) :
    joinSep sep (l₁ ++ (a ++ sep ++ b) :: l₂) = joinSep sep (l₁ ++ a :: b :: l₂) := by
  induction l₁ with
  | nil =>
    cases l₂ with
    | nil => rfl
    | cons c t =>
      simp only [List.nil_append]
      rw [joinSep_cons_of_ne_nil sep _ (by simp), joinSep_cons_of_ne_nil sep a (by simp),
        joinSep_cons_of_ne_nil sep b (by simp)]
      simp [String.append_assoc]
  | cons x xs ih =>
    simp only [List.cons_append]
    rw [joinSep_cons_of_ne_nil sep x (by simp), joinSep_cons_of_ne_nil sep x (by simp)]
    rw [ih]

/-- Starting the packing loop with an empty running chunk on a fresh paragraph
amounts to starting the running chunk at that paragraph: both branches of the
loop body coincide there. -/
theorem makeChunksAux_empty_cur (p : String) (ps chunks : List String) :
    makeChunksAux (p :: ps) chunks "" = makeChunksAux ps chunks p := by
  rw [makeChunksAux]
  split <;> simp

/-- Loop invariant for order preservation: joining the chunks the loop will
produce equals joining the chunks already closed, the running chunk and the
remaining paragraphs, provided the running chunk is non-empty and no remaining
paragraph is empty. -/
theorem joinSep_makeChunksAux (ps : List String) (chunks : List String) (cur : String)
    (hps : ∀ p ∈ ps, p ≠ "") (hcur : cur ≠ "") :
    joinSep "\n\n" (makeChunksAux ps chunks cur) = joinSep "\n\n" (chunks ++ cur :: ps) := by
  induction ps generalizing chunks cur with
  | nil => rw [makeChunksAux, if_neg hcur]
  | cons p ps ih =>
    have hp : p ≠ "" := hps p (by simp)
    have hps' : ∀ q ∈ ps, q ≠ "" := fun q hq => hps q (by simp [hq])
    rw [makeChunksAux, if_neg hcur]
    split
    · rw [ih (chunks ++ [cur]) p hps' hp]
      simp
    · have hcur' : cur ++ "\n\n" ++ p ≠ "" := by
        apply strNe_empty_of_length
        rw [String.length_append, String.length_append, sepLength]
        omega
      rw [ih chunks (cur ++ "\n\n" ++ p) hps' hcur', joinSep_merge]

/-- Chunk order preservation: when every paragraph is non-empty, rejoining the
chunks with the blank-line separator rejoins exactly the original paragraphs. -/
theorem joinSep_makeChunks (ps : List String) (hps : ∀ p ∈ ps, p ≠ "") :
    joinSep "\n\n" (makeChunks ps) = joinSep "\n\n" ps := by
  cases ps with
  | nil => rfl
  | cons p ps =>
    rw [makeChunks, makeChunksAux_empty_cur,
      joinSep_makeChunksAux ps [] p (fun q hq => hps q (by simp [hq])) (hps p (by simp))]
    rfl

/-- Loop invariant for the size bound: every chunk the loop produces either has
length at most 2502 or satisfies the predicate `S` holding of all paragraphs
(instantiated below with membership in the paragraph list). -/
theorem makeChunksAux_bound (S : String → Prop) (ps : List String)
    (chunks : List String) (cur : String)
    (hps : ∀ p ∈ ps, S p)
    (hchunks : ∀ c ∈ chunks, c.length ≤ 2502 ∨ S c)
    (hcur : cur ≠ "" → cur.length ≤ 2502 ∨ S cur) :
    ∀ c ∈ makeChunksAux ps chunks cur, c.length ≤ 2502 ∨ S c := by
  induction ps generalizing chunks cur with
  | nil =>
    intro c hc
    rw [makeChunksAux] at hc
    by_cases hne : cur = ""
    · rw [if_pos hne] at hc
      exact hchunks c hc
    · rw [if_neg hne] at hc
      rcases List.mem_append.mp hc with h | h
      · exact hchunks c h
      · simp only [List.mem_singleton] at h
        subst h
        exact hcur hne
  | cons p ps ih =>
    intro c hc
    have hp : S p := hps p (by simp)
    have hps' : ∀ q ∈ ps, S q := fun q hq => hps q (by simp [hq])
    rw [makeChunksAux] at hc
    by_cases hgt : 2500 < cur.length + p.length
    · rw [if_pos hgt] at hc
      refine ih (if cur = "" then chunks else chunks ++ [cur]) p hps' ?_
        (fun _ => Or.inr hp) c hc
      by_cases hne : cur = ""
      · rw [if_pos hne]
        exact hchunks
      · rw [if_neg hne]
        intro d hd
        rcases List.mem_append.mp hd with h | h
        · exact hchunks d h
        · simp only [List.mem_singleton] at h
          subst h
          exact hcur hne
    · rw [if_neg hgt] at hc
      refine ih chunks (if cur = "" then p else cur ++ "\n\n" ++ p) hps' hchunks ?_ c hc
      by_cases hne : cur = ""
      · rw [if_pos hne]
        exact fun _ => Or.inr hp
      · rw [if_neg hne]
        intro _
        left
        rw [String.length_append, String.length_append, sepLength]
        omega

/-! Lemmas about the paragraph splitter. -/

theorem lastNlIdx_eq_none {l : List Char} (h : '\n' ∉ l) : lastNlIdx l = none := by
  induction l with
  | nil => rfl
  | cons c t ih =>
    have hc : c ≠ '\n' := fun he => h (by simp [he])
    have ht : '\n' ∉ t := fun hm => h (by simp [hm])
    rw [lastNlIdx, ih ht, if_neg hc]

theorem sepTail_nl_head {r : List Char} (h : '\n' ∉ r.takeWhile jsWhitespace) :
    sepTail ('\n' :: r) = some r := by
  rw [sepTail]
  have hw : jsWhitespace '\n' = true := rfl
  rw [List.takeWhile_cons_of_pos hw, lastNlIdx]
  rw [lastNlIdx_eq_none h]
  simp

/-- A newline-free suffix forms the final paragraph. -/
theorem splitParasAux_no_nl (l : List Char) (acc : List Char) (h : '\n' ∉ l) :
    splitParasAux l acc = [acc.reverse ++ l] := by
  induction l generalizing acc with
  | nil => simp [splitParasAux]
  | cons c rest ih =>
    have hc : c ≠ '\n' := fun he => h (by simp [he])
    have hrest : '\n' ∉ rest := fun hm => h (by simp [hm])
    rw [splitParasAux, if_neg hc, ih (c :: acc) hrest]
    simp

/-- A newline-free paragraph followed by an exact blank-line separator whose
continuation starts with no further newline inside its leading whitespace run:
the scanner emits the paragraph and restarts after the separator. -/
theorem splitParasAux_sep (p : List Char) (r : List Char) (acc : List Char)
    (hp : '\n' ∉ p) (hr : '\n' ∉ r.takeWhile jsWhitespace) :
    splitParasAux (p ++ '\n' :: '\n' :: r) acc =
      (acc.reverse ++ p) :: splitParasAux r [] := by
  induction p generalizing acc with
  | nil =>
    rw [List.nil_append, splitParasAux]
    simp only [if_pos rfl]
    rw [sepTail_nl_head hr]
    simp
  | cons c rest ih =>
    have hc : c ≠ '\n' := fun he => hp (by simp [he])
    have hrest : '\n' ∉ rest := fun hm => hp (by simp [hm])
    rw [List.cons_append, splitParasAux, if_neg hc, ih (c :: acc) hrest]
    simp

theorem nl_not_mem_replicate (n : Nat) (c : Char) (hc : c ≠ '\n') :
    '\n' ∉ List.replicate n c := by
  intro h
  exact hc ((List.mem_replicate.mp h).2.symm)

theorem takeWhile_ws_replicate (n : Nat) (c : Char) (r : List Char)
    (hn : n ≠ 0) (hc : jsWhitespace c = false) :
    (List.replicate n c ++ r).takeWhile jsWhitespace = [] := by
  cases n with
  | zero => exact absurd rfl hn
  | succ m =>
    rw [List.replicate_succ, List.cons_append]
    exact List.takeWhile_cons_of_neg (by simp [hc])

/-! Evaluation of the splitter and packer on the concrete texts. -/

theorem sepData : ("\n\n" : String).data = ['\n', '\n'] := rfl

theorem strData_mk (l : List Char) : (String.mk l).data = l := rfl

theorem paraA1250_ne : paraA1250 ≠ "" :=
  strNe_empty_of_length (by rw [paraA1250_length]; omega)

theorem paraB1250_ne : paraB1250 ≠ "" :=
  strNe_empty_of_length (by rw [paraB1250_length]; omega)

theorem paraC6500_ne : paraC6500 ≠ "" :=
  strNe_empty_of_length (by rw [paraC6500_length]; omega)

theorem chunk12_ne : chunk12 ≠ "" :=
  strNe_empty_of_length (by rw [chunk12_length]; omega)

theorem para4500a_ne : para4500a ≠ "" :=
  strNe_empty_of_length (by rw [para4500a_length]; omega)

theorem para4500b_ne : para4500b ≠ "" :=
  strNe_empty_of_length (by rw [para4500b_length]; omega)

theorem takeWhile_ws_replicate_nil (n : Nat) (c : Char)
    (hn : n ≠ 0) (hc : jsWhitespace c = false) :
    (List.replicate n c).takeWhile jsWhitespace = [] := by
  cases n with
  | zero => exact absurd rfl hn
  | succ m =>
    rw [List.replicate_succ]
    exact List.takeWhile_cons_of_neg (by simp [hc])

theorem splitParas_textC1 : splitParas textC1 = [paraA1250, paraB1250, paraC6500] := by
  have hd : textC1.data =
      List.replicate 1250 'a' ++ ('\n' :: '\n' ::
        (List.replicate 1250 'b' ++ ('\n' :: '\n' :: List.replicate 6500 'c'))) := by
    rw [textC1, strData_append, strData_append, strData_append, strData_append,
      paraA1250, paraB1250, paraC6500, sepData]
    simp only [strData_mk, List.append_assoc, List.cons_append, List.nil_append]
  rw [splitParas, hd]
  rw [splitParasAux_sep _ _ _ (nl_not_mem_replicate 1250 'a' (by decide))
    (by rw [takeWhile_ws_replicate 1250 'b' _ (by omega) (by decide)]
        exact List.not_mem_nil _)]
  rw [splitParasAux_sep _ _ _ (nl_not_mem_replicate 1250 'b' (by decide))
    (by rw [takeWhile_ws_replicate_nil 6500 'c' (by omega) (by decide)]
        exact List.not_mem_nil _)]
  rw [splitParasAux_no_nl _ _ (nl_not_mem_replicate 6500 'c' (by decide))]
  simp only [List.reverse_nil, List.nil_append, List.map_cons, List.map_nil]
  rw [paraA1250, paraB1250, paraC6500]

theorem chunksOf_textC1 : chunksOf textC1 = [chunk12, paraC6500] := by
  rw [chunksOf, splitParas_textC1, makeChunks, makeChunksAux_empty_cur]
  rw [makeChunksAux, paraA1250_length, paraB1250_length,
    if_neg (by omega : ¬ (2500 < 1250 + 1250)), if_neg paraA1250_ne]
  rw [makeChunksAux]
  rw [show paraA1250 ++ "\n\n" ++ paraB1250 = chunk12 from rfl]
  rw [chunk12_length, paraC6500_length, if_pos (by omega : 2500 < 2502 + 6500),
    if_neg chunk12_ne]
  rw [makeChunksAux, if_neg paraC6500_ne]
  rfl

theorem textC1_length : textC1.length = 9004 := by
  rw [textC1, String.length_append, String.length_append, String.length_append,
    String.length_append, paraA1250_length, paraB1250_length, paraC6500_length, sepLength]

theorem exceeds_textC1 : exceedsTokenLimit textC1 = true := by
  rw [exceedsTokenLimit, estimatedTokens, textC1_length]
  rfl

theorem para9001a_length : para9001a.length = 9001 := by
  rw [para9001a, strLength_mk, List.length_replicate]

theorem para9001a_ne : para9001a ≠ "" :=
  strNe_empty_of_length (by rw [para9001a_length]; omega)

theorem splitParas_textC2 : splitParas textC2 = ["", para9001a] := by
  have hd : textC2.data = [] ++ ('\n' :: '\n' :: List.replicate 9001 'a') := by
    rw [textC2, strData_append, para9001a, sepData]
    simp only [strData_mk, List.cons_append, List.nil_append]
  rw [splitParas, hd]
  rw [splitParasAux_sep _ _ _ (List.not_mem_nil _)
    (by rw [takeWhile_ws_replicate_nil 9001 'a' (by omega) (by decide)]
        exact List.not_mem_nil _)]
  rw [splitParasAux_no_nl _ _ (nl_not_mem_replicate 9001 'a' (by decide))]
  simp only [List.reverse_nil, List.nil_append, List.append_nil, List.map_cons, List.map_nil]
  rw [para9001a]

theorem chunksOf_textC2 : chunksOf textC2 = [para9001a] := by
  rw [chunksOf, splitParas_textC2, makeChunks, makeChunksAux_empty_cur,
    makeChunksAux_empty_cur, makeChunksAux, if_neg para9001a_ne]
  rfl

theorem textC2_length : textC2.length = 9003 := by
  rw [textC2, String.length_append, para9001a_length, sepLength]

theorem exceeds_textC2 : exceedsTokenLimit textC2 = true := by
  rw [exceedsTokenLimit, estimatedTokens, textC2_length]
  rfl

theorem splitParas_textTwo4500 : splitParas textTwo4500 = [para4500a, para4500b] := by
  have hd : textTwo4500.data =
      List.replicate 4500 'a' ++ ('\n' :: '\n' :: List.replicate 4500 'b') := by
    rw [textTwo4500, strData_append, strData_append, para4500a, para4500b, sepData]
    simp only [strData_mk, List.append_assoc, List.cons_append, List.nil_append]
  rw [splitParas, hd]
  rw [splitParasAux_sep _ _ _ (nl_not_mem_replicate 4500 'a' (by decide))
    (by rw [takeWhile_ws_replicate_nil 4500 'b' (by omega) (by decide)]
        exact List.not_mem_nil _)]
  rw [splitParasAux_no_nl _ _ (nl_not_mem_replicate 4500 'b' (by decide))]
  simp only [List.reverse_nil, List.nil_append, List.map_cons, List.map_nil]
  rw [para4500a, para4500b]

theorem chunksOf_textTwo4500 : chunksOf textTwo4500 = [para4500a, para4500b] := by
  rw [chunksOf, splitParas_textTwo4500, makeChunks, makeChunksAux_empty_cur]
  rw [makeChunksAux, para4500a_length, para4500b_length,
    if_pos (by omega : 2500 < 4500 + 4500), if_neg para4500a_ne]
  rw [makeChunksAux, if_neg para4500b_ne]
  rfl

theorem textTwo4500_length : textTwo4500.length = 9002 := by
  rw [textTwo4500, String.length_append, String.length_append, para4500a_length,
    para4500b_length, sepLength]

theorem exceeds_textTwo4500 : exceedsTokenLimit textTwo4500 = true := by
  rw [exceedsTokenLimit, estimatedTokens, textTwo4500_length]
  rfl

theorem para1500a_length : para1500a.length = 1500 := by
  rw [para1500a, strLength_mk, List.length_replicate]

theorem para1500b_length : para1500b.length = 1500 := by
  rw [para1500b, strLength_mk, List.length_replicate]

theorem textTwo1500_length : textTwo1500.length = 3002 := by
  rw [textTwo1500, String.length_append, String.length_append, para1500a_length,
    para1500b_length, sepLength]

theorem exceeds_textTwo1500 : exceedsTokenLimit textTwo1500 = false := by
  rw [exceedsTokenLimit, estimatedTokens, textTwo1500_length]
  rfl

theorem textTwo1500_ne : textTwo1500 ≠ "" :=
  strNe_empty_of_length (by rw [textTwo1500_length]; omega)

theorem textTwo4500_ne : textTwo4500 ≠ "" :=
  strNe_empty_of_length (by rw [textTwo4500_length]; omega)

/-! Lemmas about the sequential chunk-translation loop and the two paths of
`translateText`. -/

theorem translateChunksLoop_length (oracle : Oracle) (n : Nat) (cs : List String) :
    (translateChunksLoop oracle n cs).length = cs.length := by
  induction cs generalizing n with
  | nil => rfl
  | cons c cs ih => simp only [translateChunksLoop, List.length_cons, ih]

theorem translateChunksLoop_getElem (oracle : Oracle) (n : Nat) (cs : List String)
    (i : Nat) (hi : i < cs.length) :
    (translateChunksLoop oracle n cs)[i]? = some (chunkResult (oracle (n + i))) := by
  induction cs generalizing n i with
  | nil => exact absurd hi (by simp)
  | cons c cs ih =>
    cases i with
    | zero => simp [translateChunksLoop]
    | succ j =>
      have hj : j < cs.length := by simpa using hi
      rw [translateChunksLoop]
      rw [List.getElem?_cons_succ, ih (n + 1) j hj]
      have : n + 1 + j = n + (j + 1) := by omega
      rw [this]

theorem translateChunksLoop_eq_map (oracle : Oracle) (n : Nat) (cs : List String) :
    translateChunksLoop oracle n cs =
      (List.range cs.length).map (fun i => chunkResult (oracle (n + i))) := by
  induction cs generalizing n with
  | nil => rfl
  | cons c cs ih =>
    rw [translateChunksLoop, List.length_cons, List.range_succ_eq_map, List.map_cons,
      List.map_map, ih (n + 1)]
    refine congrArg₂ _ (by rw [Nat.add_zero]) ?_
    refine List.map_congr_left ?_
    intro i _
    simp only [Function.comp_apply]
    refine congrArg _ (congrArg _ ?_)
    omega

theorem translateText_direct (oracle : Oracle) (n : Nat) (text src tgt : String)
    (opts : Options) (h1 : text ≠ "") (h2 : src ≠ "") (h3 : tgt ≠ "")
    (h4 : exceedsTokenLimit text = false) :
    translateText oracle n text src tgt opts =
      (match oracle n with
       | .ok content => (.ok content.trim, [mkChatRequest src tgt opts text])
       | .error e => (.error (classifyApiError e), [mkChatRequest src tgt opts text])) := by
  rw [translateText, if_neg h1, if_neg h2, if_neg h3,
    if_neg (by rw [h4]; exact Bool.false_ne_true)]

theorem translateText_chunked (oracle : Oracle) (n : Nat) (text src tgt : String)
    (opts : Options) (h1 : text ≠ "") (h2 : src ≠ "") (h3 : tgt ≠ "")
    (h4 : exceedsTokenLimit text = true) :
    translateText oracle n text src tgt opts =
      (.ok (joinSep "\n\n" (translateChunksLoop oracle n (chunksOf text))),
       (chunksOf text).map (mkChatRequest src tgt opts)) := by
  rw [translateText, if_neg h1, if_neg h2, if_neg h3, if_pos h4]
  rfl

/-- A text whose token estimate exceeds the limit is in particular non-empty. -/
theorem ne_empty_of_exceeds {text : String} (h : exceedsTokenLimit text = true) :
    text ≠ "" := by
  intro he
  rw [he] at h
  exact Bool.false_ne_true h

/-- When the source language is missing and detection succeeds, the controller
response is that of the post-detection flow run with the detected code. -/
theorem createTranslation_detect_ok_fst (oracle : Oracle) (dbOk : Bool)
    (req : TranslationRequestBody) (c : String)
    (hst : req.sourceText ≠ "") (hsl : req.sourceLang = "")
    (ho : oracle 0 = .ok c) :
    (createTranslation oracle dbOk req).fst =
      (afterDetection oracle 1 dbOk req c.trim.toLower).fst := by
  rw [createTranslation, if_neg hst, if_pos hsl, detectLanguage, ho]

/-- When the source language is missing and detection succeeds, the request trace
is the detection request followed by the post-detection trace. -/
theorem createTranslation_detect_ok_snd (oracle : Oracle) (dbOk : Bool)
    (req : TranslationRequestBody) (c : String)
    (hst : req.sourceText ≠ "") (hsl : req.sourceLang = "")
    (ho : oracle 0 = .ok c) :
    (createTranslation oracle dbOk req).snd =
      detectionRequest req.sourceText ::
        (afterDetection oracle 1 dbOk req c.trim.toLower).snd := by
  rw [createTranslation, if_neg hst, if_pos hsl, detectLanguage, ho]
  rfl

/-- When the source language is missing and detection fails, the controller
rejects with the detection message after exactly the one detection request. -/
theorem createTranslation_detect_err (oracle : Oracle) (dbOk : Bool)
    (req : TranslationRequestBody) (e : ApiError)
    (hst : req.sourceText ≠ "") (hsl : req.sourceLang = "")
    (ho : oracle 0 = .error e) :
    createTranslation oracle dbOk req =
      (mkErrorResponse 400 detectionRejectMsg, [detectionRequest req.sourceText]) := by
  rw [createTranslation, if_neg hst, if_pos hsl, detectLanguage, ho]

/-! Claim theorems. -/

/-- Claim C1, counterexample: on the 9004-character text `textC1` (paragraphs of
1250, 1250 and 6500 characters) the chunked path is taken and the first chunk is
the two 1250-character paragraphs rejoined with the blank-line separator, 2502
characters long — more than 2500 although it is not a single paragraph.  The claim
that every chunk as actually built is at most 2500 characters unless it is a
single oversized paragraph is therefore false. -/
theorem chunk_bound_2500_cex :
    exceedsTokenLimit textC1 = true ∧
      ¬ (∀ c ∈ chunksOf textC1, c.length ≤ 2500 ∨ c ∈ splitParas textC1) := by
  refine ⟨exceeds_textC1, ?_⟩
  intro h
  have hmem : chunk12 ∈ chunksOf textC1 := by rw [chunksOf_textC1]; exact List.mem_cons_self _ _
  rcases h chunk12 hmem with hle | hp
  · rw [chunk12_length] at hle
    omega
  · rw [splitParas_textC1] at hp
    rcases List.mem_cons.mp hp with he | hp
    · have := congrArg String.length he
      rw [chunk12_length, paraA1250_length] at this
      omega
    rcases List.mem_cons.mp hp with he | hp
    · have := congrArg String.length he
      rw [chunk12_length, paraB1250_length] at this
      omega
    rcases List.mem_cons.mp hp with he | hp
    · have := congrArg String.length he
      rw [chunk12_length, paraC6500_length] at this
      omega
    · exact List.not_mem_nil _ hp

/-- Claim C1 (amended): for every input text taking the chunked path, every chunk
built by the greedy packer either is one of the paragraphs (a single paragraph
kept whole, however long) or has character length at most 2502 — the 2500 packing
bound plus the two-character blank-line separator, because the packing test
compares lengths before the separator is inserted by the join. -/
theorem chunk_bound_within_separator_slack (text : String)
    (hex : exceedsTokenLimit text = true) :
    ∀ c ∈ chunksOf text, c.length ≤ 2502 ∨ c ∈ splitParas text := by
  have h := makeChunksAux_bound (fun c => c ∈ splitParas text) (splitParas text) [] ""
    (fun p hp => hp) (by intro c hc; exact absurd hc (List.not_mem_nil c))
    (fun hne => absurd rfl hne)
  exact h

/-- Witness for the amended C1 bound at the concrete chunked-path text. -/
theorem chunk_bound_within_separator_slack_witness :
    exceedsTokenLimit textC1 = true ∧
      ∀ c ∈ chunksOf textC1, c.length ≤ 2502 ∨ c ∈ splitParas textC1 :=
  ⟨exceeds_textC1, chunk_bound_within_separator_slack textC1 exceeds_textC1⟩

/-- Claim C2, counterexample: the chunked-path text `textC2` begins with a
blank-line separator, so its paragraph split starts with an empty paragraph; the
packer silently drops that empty paragraph, and rejoining the chunks with the
blank-line separator does not reconstruct the original paragraph sequence. -/
theorem chunk_reconstruction_cex :
    exceedsTokenLimit textC2 = true ∧
      joinSep "\n\n" (chunksOf textC2) ≠ joinSep "\n\n" (splitParas textC2) := by
  refine ⟨exceeds_textC2, ?_⟩
  intro h
  have hlen := congrArg String.length h
  rw [chunksOf_textC2, splitParas_textC2] at hlen
  have e1 : joinSep "\n\n" [para9001a] = para9001a := rfl
  have e2 : joinSep "\n\n" ["", para9001a] = "" ++ "\n\n" ++ joinSep "\n\n" [para9001a] := rfl
  have e3 : ("" : String).length = 0 := rfl
  rw [e2, e1, String.length_append, String.length_append, sepLength, e3,
    para9001a_length] at hlen
  omega

/-- Claim C2 (amended): for every input text taking the chunked path whose
paragraph split contains no empty paragraph, rejoining the built chunks with the
blank-line separator reconstructs exactly the rejoined original paragraph
sequence; moreover the translated output is the blank-line join of one segment per
chunk where segment i is the outcome of the call for chunk i, and the i-th request
sent carries exactly the i-th chunk. -/
theorem chunk_order_and_reconstruction (text src tgt : String) (opts : Options)
    (oracle : Oracle) (n : Nat) (hex : exceedsTokenLimit text = true)
    (h2 : src ≠ "") (h3 : tgt ≠ "") :
    ((∀ p ∈ splitParas text, p ≠ "") →
      joinSep "\n\n" (chunksOf text) = joinSep "\n\n" (splitParas text)) ∧
    (translateText oracle n text src tgt opts).fst =
      .ok (joinSep "\n\n"
        ((List.range (chunksOf text).length).map (fun i => chunkResult (oracle (n + i))))) ∧
    (translateText oracle n text src tgt opts).snd =
      (chunksOf text).map (mkChatRequest src tgt opts) := by
  refine ⟨fun hps => joinSep_makeChunks _ hps, ?_, ?_⟩
  · rw [translateText_chunked oracle n text src tgt opts (ne_empty_of_exceeds hex) h2 h3 hex,
      translateChunksLoop_eq_map]
  · rw [translateText_chunked oracle n text src tgt opts (ne_empty_of_exceeds hex) h2 h3 hex]

/-- Witness for amended C2 at the concrete two-paragraph chunked-path text. -/
theorem chunk_order_and_reconstruction_witness :
    joinSep "\n\n" (chunksOf textTwo4500) = joinSep "\n\n" (splitParas textTwo4500) ∧
    (translateText okOracle 0 textTwo4500 "en" "es" defaultOptions).fst =
      .ok (joinSep "\n\n"
        ((List.range (chunksOf textTwo4500).length).map
          (fun i => chunkResult (okOracle (0 + i))))) := by
  have h := chunk_order_and_reconstruction textTwo4500 "en" "es" defaultOptions okOracle 0
    exceeds_textTwo4500 (by decide) (by decide)
  refine ⟨h.1 ?_, h.2.1⟩
  rw [splitParas_textTwo4500]
  intro p hp
  rcases List.mem_cons.mp hp with he | hp
  · rw [he]
    exact para4500a_ne
  rcases List.mem_cons.mp hp with he | hp
  · rw [he]
    exact para4500b_ne
  · exact absurd hp (List.not_mem_nil p)

/-- Claim C3: for every non-empty text with non-empty source and target languages
whose token estimate (the ceiling of one third of the character length) is at most
3000, translateText sends exactly one completion request, carrying the input text,
and on success returns the trimmed response verbatim. -/
theorem direct_path_single_trimmed_call (oracle : Oracle) (n : Nat)
    (text src tgt : String) (opts : Options)
    (h1 : text ≠ "") (h2 : src ≠ "") (h3 : tgt ≠ "")
    (h4 : (text.length + 2) / 3 ≤ 3000) :
    (translateText oracle n text src tgt opts).snd = [mkChatRequest src tgt opts text] ∧
    (∀ r, oracle n = .ok r →
      (translateText oracle n text src tgt opts).fst = .ok r.trim) := by
  have hex : exceedsTokenLimit text = false := by
    rw [exceedsTokenLimit]
    simp only [decide_eq_false_iff_not, not_lt]
    exact h4
  rw [translateText_direct oracle n text src tgt opts h1 h2 h3 hex]
  constructor
  · cases ho : oracle n <;> rfl
  · intro r hr
    rw [hr]

/-- Witness for C3 on a short text with a successful call. -/
theorem direct_path_single_trimmed_call_witness :
    (translateText okOracle 0 "hello" "en" "es" defaultOptions).snd =
      [mkChatRequest "en" "es" defaultOptions "hello"] ∧
    (translateText okOracle 0 "hello" "en" "es" defaultOptions).fst =
      .ok (" Hola " : String).trim := by
  have h := direct_path_single_trimmed_call okOracle 0 "hello" "en" "es" defaultOptions
    (by decide) (by decide) (by decide) (by decide)
  exact ⟨h.1, h.2 " Hola " rfl⟩

/-- Claim C4: on the chunked path, if the call for chunk j fails, the operation
still succeeds and returns the blank-line join of one segment per chunk in
original order; segment j is the inline error marker carrying the failure message,
and every chunk whose call succeeded contributes its trimmed translation in its
own slot. -/
theorem chunk_failure_isolated (oracle : Oracle) (n : Nat) (text src tgt : String)
    (opts : Options) (j : Nat) (e : ApiError)
    (h2 : src ≠ "") (h3 : tgt ≠ "") (hex : exceedsTokenLimit text = true)
    (hj : j < (chunksOf text).length) (hfail : oracle (n + j) = .error e) :
    ∃ segs : List String,
      (translateText oracle n text src tgt opts).fst = .ok (joinSep "\n\n" segs) ∧
      segs.length = (chunksOf text).length ∧
      segs[j]? = some ("[TRANSLATION ERROR: " ++ e.message ++ "]") ∧
      ∀ i r, i < (chunksOf text).length → oracle (n + i) = .ok r →
        segs[i]? = some r.trim := by
  refine ⟨translateChunksLoop oracle n (chunksOf text), ?_,
    translateChunksLoop_length oracle n (chunksOf text), ?_, ?_⟩
  · rw [translateText_chunked oracle n text src tgt opts (ne_empty_of_exceeds hex) h2 h3 hex]
  · rw [translateChunksLoop_getElem oracle n (chunksOf text) j hj, hfail]
    rfl
  · intro i r hi hr
    rw [translateChunksLoop_getElem oracle n (chunksOf text) i hi, hr]
    rfl

/-- Witness for C4: two chunks, first call fails, second succeeds. -/
theorem chunk_failure_isolated_witness :
    ∃ segs : List String,
      (translateText failFirstOracle 0 textTwo4500 "en" "es" defaultOptions).fst =
        .ok (joinSep "\n\n" segs) ∧
      segs.length = (chunksOf textTwo4500).length ∧
      segs[0]? = some ("[TRANSLATION ERROR: " ++ ("boom" : String) ++ "]") ∧
      ∀ i r, i < (chunksOf textTwo4500).length → failFirstOracle (0 + i) = .ok r →
        segs[i]? = some r.trim :=
  chunk_failure_isolated failFirstOracle 0 textTwo4500 "en" "es" defaultOptions 0
    ⟨none, "boom"⟩ (by decide) (by decide) exceeds_textTwo4500
    (by rw [chunksOf_textTwo4500]; simp) rfl

/-- Claim C5, counterexample: a text of two 1500-character paragraphs (3002
characters in all) has an estimated token count of 1002, well under the 3000
threshold, so translateText takes the direct path and makes exactly one external
call — not the chunked path with two chunks and two calls that the claim asserts. -/
theorem two_paragraphs_1500_take_direct_path :
    exceedsTokenLimit textTwo1500 = false ∧
    (translateText okOracle 0 textTwo1500 "en" "es" defaultOptions).snd.length = 1 := by
  refine ⟨exceeds_textTwo1500, ?_⟩
  rw [translateText_direct okOracle 0 textTwo1500 "en" "es" defaultOptions textTwo1500_ne
    (by decide) (by decide) exceeds_textTwo1500]
  rfl

/-- Claim C5 (amended): for an input text of two 4500-character newline-free
paragraphs separated by a blank line (9002 characters, so the 3000-token threshold
is exceeded — the 2500 bound governs packing, not the path choice), translateText
takes the chunked path, builds exactly the two paragraphs as chunks, sends exactly
one request per chunk carrying that chunk, and returns the first translated chunk,
a blank-line separator, and the second translated chunk. -/
theorem two_large_paragraphs_chunked (p₁ p₂ : List Char) (oracle : Oracle)
    (src tgt : String) (opts : Options) (r₁ r₂ : String)
    (hl₁ : p₁.length = 4500) (hl₂ : p₂.length = 4500)
    (hn₁ : '\n' ∉ p₁) (hn₂ : '\n' ∉ p₂)
    (h2 : src ≠ "") (h3 : tgt ≠ "")
    (ho₀ : oracle 0 = .ok r₁) (ho₁ : oracle 1 = .ok r₂) :
    exceedsTokenLimit (String.mk p₁ ++ "\n\n" ++ String.mk p₂) = true ∧
    chunksOf (String.mk p₁ ++ "\n\n" ++ String.mk p₂) = [String.mk p₁, String.mk p₂] ∧
    (translateText oracle 0 (String.mk p₁ ++ "\n\n" ++ String.mk p₂) src tgt opts).fst =
      .ok (r₁.trim ++ "\n\n" ++ r₂.trim) ∧
    (translateText oracle 0 (String.mk p₁ ++ "\n\n" ++ String.mk p₂) src tgt opts).snd =
      [mkChatRequest src tgt opts (String.mk p₁), mkChatRequest src tgt opts (String.mk p₂)] := by
  have hlen : (String.mk p₁ ++ "\n\n" ++ String.mk p₂).length = 9002 := by
    rw [String.length_append, String.length_append, sepLength, strLength_mk,
      strLength_mk, hl₁, hl₂]
  have hex : exceedsTokenLimit (String.mk p₁ ++ "\n\n" ++ String.mk p₂) = true := by
    rw [exceedsTokenLimit, estimatedTokens, hlen]
    rfl
  have hsplit : splitParas (String.mk p₁ ++ "\n\n" ++ String.mk p₂) =
      [String.mk p₁, String.mk p₂] := by
    have hd : (String.mk p₁ ++ "\n\n" ++ String.mk p₂).data =
        p₁ ++ ('\n' :: '\n' :: p₂) := by
      rw [strData_append, strData_append, strData_mk, strData_mk, sepData]
      simp only [List.append_assoc, List.cons_append, List.nil_append]
    rw [splitParas, hd]
    rw [splitParasAux_sep p₁ p₂ [] hn₁
      (fun hm => hn₂ ((List.takeWhile_sublist jsWhitespace).mem hm))]
    rw [splitParasAux_no_nl p₂ [] hn₂]
    simp only [List.reverse_nil, List.nil_append, List.map_cons, List.map_nil]
  have hne₁ : String.mk p₁ ≠ "" :=
    strNe_empty_of_length (by rw [strLength_mk, hl₁]; omega)
  have hne₂ : String.mk p₂ ≠ "" :=
    strNe_empty_of_length (by rw [strLength_mk, hl₂]; omega)
  have hchunks : chunksOf (String.mk p₁ ++ "\n\n" ++ String.mk p₂) =
      [String.mk p₁, String.mk p₂] := by
    rw [chunksOf, hsplit, makeChunks, makeChunksAux_empty_cur]
    rw [makeChunksAux, strLength_mk, strLength_mk, hl₁, hl₂,
      if_pos (by omega : 2500 < 4500 + 4500), if_neg hne₁]
    rw [makeChunksAux, if_neg hne₂]
    rfl
  refine ⟨hex, hchunks, ?_, ?_⟩
  · rw [translateText_chunked oracle 0 _ src tgt opts (ne_empty_of_exceeds hex) h2 h3 hex,
      hchunks]
    rw [translateChunksLoop, translateChunksLoop, translateChunksLoop, ho₀]
    rw [show (0 + 1 : Nat) = 1 from rfl, ho₁]
    rfl
  · rw [translateText_chunked oracle 0 _ src tgt opts (ne_empty_of_exceeds hex) h2 h3 hex,
      hchunks]
    rfl

/-- Witness for amended C5 at the concrete two-paragraph text with two successful
calls. -/
theorem two_large_paragraphs_chunked_witness :
    exceedsTokenLimit textTwo4500 = true ∧
    chunksOf textTwo4500 = [para4500a, para4500b] ∧
    (translateText twoOracle 0 textTwo4500 "en" "es" defaultOptions).fst =
      .ok ((" uno " : String).trim ++ "\n\n" ++ (" dos " : String).trim) ∧
    (translateText twoOracle 0 textTwo4500 "en" "es" defaultOptions).snd =
      [mkChatRequest "en" "es" defaultOptions para4500a,
       mkChatRequest "en" "es" defaultOptions para4500b] :=
  two_large_paragraphs_chunked (List.replicate 4500 'a') (List.replicate 4500 'b')
    twoOracle "en" "es" defaultOptions " uno " " dos "
    (by rw [List.length_replicate]) (by rw [List.length_replicate])
    (nl_not_mem_replicate 4500 'a' (by decide)) (nl_not_mem_replicate 4500 'b' (by decide))
    (by decide) (by decide) rfl rfl

/-- Claim C6, counterexample: a request with non-empty source text but missing
source AND target language is rejected with the target-language validation
failure, yet a language-detection call has already been made before the
rejection — the request list is not empty. -/
theorem missing_target_detection_call_cex :
    (createTranslation okOracle true ⟨"hi", "", "", none⟩).fst =
      mkErrorResponse 400 targetRequiredMsg ∧
    (createTranslation okOracle true ⟨"hi", "", "", none⟩).snd =
      [detectionRequest "hi"] ∧
    (createTranslation okOracle true ⟨"hi", "", "", none⟩).snd ≠ [] := by
  have hrun : createTranslation okOracle true ⟨"hi", "", "", none⟩ =
      (mkErrorResponse 400 targetRequiredMsg, [detectionRequest "hi"]) := rfl
  refine ⟨by rw [hrun], by rw [hrun], by rw [hrun]; simp⟩

/-- Claim C6 (amended): empty source text is rejected with a 400 before any
external call; a missing target language is rejected with a 400 before any
translation call — with no external call at all when the source language is
present, and with exactly one language-detection call (and still no translation
call) when the source language is missing too. -/
theorem validation_rejection_order (oracle : Oracle) (dbOk : Bool)
    (req : TranslationRequestBody) :
    (req.sourceText = "" →
      createTranslation oracle dbOk req = (mkErrorResponse 400 srcTextRequiredMsg, [])) ∧
    (req.sourceText ≠ "" → req.sourceLang ≠ "" → req.targetLang = "" →
      createTranslation oracle dbOk req = (mkErrorResponse 400 targetRequiredMsg, [])) ∧
    (req.sourceText ≠ "" → req.sourceLang = "" → req.targetLang = "" →
      (createTranslation oracle dbOk req).snd = [detectionRequest req.sourceText] ∧
      (createTranslation oracle dbOk req).fst.status = 400 ∧
      (createTranslation oracle dbOk req).fst.success = false) := by
  refine ⟨?_, ?_, ?_⟩
  · intro h
    rw [createTranslation, if_pos h]
  · intro h1 h2 h3
    rw [createTranslation, if_neg h1, if_neg h2, afterDetection.eq_def, if_pos h3]
  · intro h1 h2 h3
    cases ho : oracle 0 with
    | ok c =>
      refine ⟨?_, ?_, ?_⟩
      · rw [createTranslation_detect_ok_snd oracle dbOk req c h1 h2 ho,
          afterDetection.eq_def, if_pos h3]
      · rw [createTranslation_detect_ok_fst oracle dbOk req c h1 h2 ho,
          afterDetection.eq_def, if_pos h3]
        rfl
      · rw [createTranslation_detect_ok_fst oracle dbOk req c h1 h2 ho,
          afterDetection.eq_def, if_pos h3]
        rfl
    | error e =>
      rw [createTranslation_detect_err oracle dbOk req e h1 h2 ho]
      exact ⟨rfl, rfl, rfl⟩

/-- Witness for amended C6: all three rejection shapes at concrete requests. -/
theorem validation_rejection_order_witness :
    createTranslation okOracle true ⟨"", "en", "es", none⟩ =
      (mkErrorResponse 400 srcTextRequiredMsg, []) ∧
    createTranslation okOracle true ⟨"hi", "en", "", none⟩ =
      (mkErrorResponse 400 targetRequiredMsg, []) ∧
    (createTranslation okOracle true ⟨"hi", "", "", none⟩).snd =
      [detectionRequest "hi"] := by
  refine ⟨(validation_rejection_order okOracle true ⟨"", "en", "es", none⟩).1 rfl,
    (validation_rejection_order okOracle true ⟨"hi", "en", "", none⟩).2.1
      (by decide) (by decide) rfl,
    ((validation_rejection_order okOracle true ⟨"hi", "", "", none⟩).2.2
      (by decide) rfl rfl).1⟩

/-- Claim C7: for every request with non-empty source text and no source
language, a language-detection call is made first; if it fails, the whole
operation is rejected (400, with the manual-specification guidance surfaced by
the service layer as its detection error) and the only request ever sent is the
single detection request — no translation call is attempted. -/
theorem detection_failure_fatal (oracle : Oracle) (dbOk : Bool)
    (req : TranslationRequestBody) (e : ApiError)
    (hst : req.sourceText ≠ "") (hsl : req.sourceLang = "")
    (hfail : oracle 0 = .error e) :
    createTranslation oracle dbOk req =
      (mkErrorResponse 400 detectionRejectMsg, [detectionRequest req.sourceText]) ∧
    (detectLanguage oracle 0 req.sourceText).fst = .error detectionFailedMsg := by
  constructor
  · rw [createTranslation, if_neg hst, if_pos hsl, detectLanguage, hfail]
  · rw [detectLanguage, hfail]

/-- Witness for C7 with a failing detection oracle. -/
theorem detection_failure_fatal_witness :
    createTranslation failOracle true ⟨"hola", "", "fr", none⟩ =
      (mkErrorResponse 400 detectionRejectMsg, [detectionRequest "hola"]) ∧
    (detectLanguage failOracle 0 "hola").fst = .error detectionFailedMsg :=
  detection_failure_fatal failOracle true ⟨"hola", "", "fr", none⟩ ⟨none, "down"⟩
    (by decide) rfl rfl

/-- Claim C8: the model parameters depend on nothing but `options.style`, and the
three table rows are: detailed gives the higher pair (temperature 0.4, 3000
tokens), simplified the lower pair (0.2, 1500), anything else the baseline
(0.3, 2000), always with model gpt-4. -/
theorem model_params_pure_in_style :
    (∀ o₁ o₂ : Options, o₁.style = o₂.style →
      determineModelParameters o₁ = determineModelParameters o₂) ∧
    (∀ o : Options, o.style = "detailed" →
      determineModelParameters o = ⟨"gpt-4", 4/10, 3000⟩) ∧
    (∀ o : Options, o.style = "simplified" →
      determineModelParameters o = ⟨"gpt-4", 2/10, 1500⟩) ∧
    (∀ o : Options, o.style ≠ "detailed" → o.style ≠ "simplified" →
      determineModelParameters o = ⟨"gpt-4", 3/10, 2000⟩) := by
  refine ⟨?_, ?_, ?_, ?_⟩
  · intro o₁ o₂ h
    rw [determineModelParameters, determineModelParameters, h]
  · intro o h
    rw [determineModelParameters, if_pos h]
  · intro o h
    rw [determineModelParameters, if_neg (by rw [h]; decide), if_pos h]
  · intro o h1 h2
    rw [determineModelParameters, if_neg h1, if_neg h2]

/-- Witness for C8 at the three style values and an independence instance. -/
theorem model_params_pure_in_style_witness :
    determineModelParameters ⟨"formal", "detailed", false⟩ = ⟨"gpt-4", 4/10, 3000⟩ ∧
    determineModelParameters ⟨"", "simplified", true⟩ = ⟨"gpt-4", 2/10, 1500⟩ ∧
    determineModelParameters defaultOptions = ⟨"gpt-4", 3/10, 2000⟩ ∧
    determineModelParameters ⟨"casual", "detailed", true⟩ =
      determineModelParameters ⟨"formal", "detailed", false⟩ :=
  ⟨model_params_pure_in_style.2.1 ⟨"formal", "detailed", false⟩ rfl,
   model_params_pure_in_style.2.2.1 ⟨"", "simplified", true⟩ rfl,
   model_params_pure_in_style.2.2.2 defaultOptions (by decide) (by decide),
   model_params_pure_in_style.1 ⟨"casual", "detailed", true⟩ ⟨"formal", "detailed", false⟩ rfl⟩

/-- The catch block classification, spelled as the specification states it. -/
theorem classify_spelled (e : ApiError) :
    classifyApiError e =
      (if e.status = some 429 then rateLimitMsg
       else if e.status = some 401 then authErrorMsg
       else if e.status = some 500 then serviceErrorMsg
       else genericFailureMsg) := by
  cases hst : e.status with
  | none => simp [classifyApiError, hst]
  | some s => simp [classifyApiError, hst]

/-- Claim C9: on the direct path every external failure is fatal (the result is
an error) and is classified by the response status — 429 to the rate-limit
message, 401 to the authentication message, 500 to the service message, anything
else (including a missing response status) to the generic message — and the four
user-facing messages are pairwise distinct. -/
theorem direct_failure_classification (oracle : Oracle) (n : Nat)
    (text src tgt : String) (opts : Options) (e : ApiError)
    (h1 : text ≠ "") (h2 : src ≠ "") (h3 : tgt ≠ "")
    (h4 : exceedsTokenLimit text = false) (hfail : oracle n = .error e) :
    (translateText oracle n text src tgt opts).fst =
      .error (if e.status = some 429 then rateLimitMsg
        else if e.status = some 401 then authErrorMsg
        else if e.status = some 500 then serviceErrorMsg
        else genericFailureMsg) ∧
    List.Pairwise (fun a b => a ≠ b)
      [rateLimitMsg, authErrorMsg, serviceErrorMsg, genericFailureMsg] := by
  constructor
  · rw [translateText_direct oracle n text src tgt opts h1 h2 h3 h4, hfail]
    exact congrArg Except.error (classify_spelled e)
  · decide

/-- Witness for C9 with a response-less failure mapped to the generic message. -/
theorem direct_failure_classification_witness :
    (translateText failOracle 0 "hello" "en" "es" defaultOptions).fst =
      .error genericFailureMsg ∧
    List.Pairwise (fun a b => a ≠ b)
      [rateLimitMsg, authErrorMsg, serviceErrorMsg, genericFailureMsg] :=
  direct_failure_classification failOracle 0 "hello" "en" "es" defaultOptions
    ⟨none, "down"⟩ (by decide) (by decide) (by decide) (by decide) rfl

/-- The database-failure fallback of the controller, after the source language is
resolved: a 201 under a working database becomes, under a failing database, a 200
success carrying the same translated text, flagged unsaved, with the history
warning. -/
theorem afterDetection_db_fallback (oracle : Oracle) (n : Nat)
    (req : TranslationRequestBody) (src : String)
    (h : (afterDetection oracle n true req src).fst.status = 201) :
    (afterDetection oracle n false req src).fst.status = 200 ∧
    (afterDetection oracle n false req src).fst.success = true ∧
    (afterDetection oracle n false req src).fst.message = none ∧
    (afterDetection oracle n false req src).fst.warning = some dbWarningMsg ∧
    ∃ d₁ d₂ : ResponseData,
      (afterDetection oracle n true req src).fst.data = some d₁ ∧
      (afterDetection oracle n false req src).fst.data = some d₂ ∧
      d₂.translatedText = d₁.translatedText ∧ d₁.dbSaveFailed = false ∧
      d₂.dbSaveFailed = true := by
  by_cases htl : req.targetLang = ""
  · rw [afterDetection, if_pos htl] at h
    exact absurd h (by simp [mkErrorResponse])
  · rcases hT : translateText oracle n req.sourceText src req.targetLang
      (req.options.getD defaultOptions) with ⟨res, reqs⟩
    rw [afterDetection, if_neg htl, hT] at h
    rw [afterDetection, if_neg htl, hT, afterDetection, if_neg htl, hT]
    cases res with
    | error m => exact absurd h (by simp [mkErrorResponse])
    | ok t =>
      exact ⟨rfl, rfl, rfl, rfl,
        ⟨req.sourceText, t, src, req.targetLang, req.options.getD defaultOptions,
          false, false⟩,
        ⟨req.sourceText, t, src, req.targetLang, req.options.getD defaultOptions,
          false, true⟩,
        rfl, rfl, rfl, rfl, rfl⟩

/-- Claim C10: when the translation succeeds but the database write fails, the
controller still answers success: status 200, the same translated text in the
response data, the data flagged as not saved, and the warning that the
translation could not be saved to history — a storage failure never discards a
completed translation. -/
theorem db_failure_preserves_translation (oracle : Oracle)
    (req : TranslationRequestBody)
    (h : (createTranslation oracle true req).fst.status = 201) :
    (createTranslation oracle false req).fst.status = 200 ∧
    (createTranslation oracle false req).fst.success = true ∧
    (createTranslation oracle false req).fst.message = none ∧
    (createTranslation oracle false req).fst.warning = some dbWarningMsg ∧
    ∃ d₁ d₂ : ResponseData,
      (createTranslation oracle true req).fst.data = some d₁ ∧
      (createTranslation oracle false req).fst.data = some d₂ ∧
      d₂.translatedText = d₁.translatedText ∧ d₁.dbSaveFailed = false ∧
      d₂.dbSaveFailed = true := by
  by_cases hst : req.sourceText = ""
  · rw [createTranslation, if_pos hst] at h
    exact absurd h (by simp [mkErrorResponse])
  · by_cases hsl : req.sourceLang = ""
    · cases ho : oracle 0 with
      | ok c =>
        rw [createTranslation_detect_ok_fst oracle true req c hst hsl ho] at h
        rw [createTranslation_detect_ok_fst oracle false req c hst hsl ho,
          createTranslation_detect_ok_fst oracle true req c hst hsl ho]
        exact afterDetection_db_fallback oracle 1 req c.trim.toLower h
      | error e =>
        rw [createTranslation_detect_err oracle true req e hst hsl ho] at h
        exact absurd h (by simp [mkErrorResponse])
    · rw [createTranslation, if_neg hst, if_neg hsl] at h
      rw [createTranslation, if_neg hst, if_neg hsl]
      rw [createTranslation, if_neg hst, if_neg hsl]
      exact afterDetection_db_fallback oracle 0 req req.sourceLang h

/-- Witness for C10: a concrete request whose translation succeeds; with a
failing database the response is the 200-with-warning fallback. -/
theorem db_failure_preserves_translation_witness :
    (createTranslation okOracle false ⟨"hello", "en", "es", none⟩).fst.status = 200 ∧
    (createTranslation okOracle false ⟨"hello", "en", "es", none⟩).fst.success = true ∧
    (createTranslation okOracle false ⟨"hello", "en", "es", none⟩).fst.message = none ∧
    (createTranslation okOracle false ⟨"hello", "en", "es", none⟩).fst.warning =
      some dbWarningMsg ∧
    ∃ d₁ d₂ : ResponseData,
      (createTranslation okOracle true ⟨"hello", "en", "es", none⟩).fst.data = some d₁ ∧
      (createTranslation okOracle false ⟨"hello", "en", "es", none⟩).fst.data = some d₂ ∧
      d₂.translatedText = d₁.translatedText ∧ d₁.dbSaveFailed = false ∧
      d₂.dbSaveFailed = true :=
  db_failure_preserves_translation okOracle ⟨"hello", "en", "es", none⟩ rfl

end AITranslator
